import Mathlib

set_option linter.unusedVariables false

/-!
Shallow embedding of pkg/business/connection.go from tradalia/system-adapter.

The connection registry is a map from username to UserConnections (a map from
connection code to ConnectionContext), protected in the source by one
reader/writer lock held for the whole body of every mutating operation; each
service call is therefore modelled as one atomic function on the registry.
Go maps are modelled as association lists with unique keys.

Collaborators that live outside src/ (the adapter package, the req error
constructors, the msg publisher, the auth session) are modelled from the
spec, each marked in its doc comment. An Event trace records the order of
the externally visible primitives (context storage, adapter connect, message
publication, adapter disconnect) so that ordering and invocation-count
properties can be stated.
-/

namespace SysAdapter

/-- Modelled from the spec: the connection status enum of the adapter package
(Disconnected, Connecting, Connected, Error), section 4.2. -/
inductive ConnStatus where
  | disconnected
  | connecting
  | connected
  | error
  deriving DecidableEq, Repr

/-- Modelled from the spec: adapterInfo() of the adapter capability surface,
a pair of system code and display name. -/
structure AdapterInfo where
  code : String
  name : String
  deriving DecidableEq, Repr

/-- Modelled from the spec: the three-way outcome of the adapter connect
primitive, plus its error case (Go returns a result and an error). -/
inductive AdapterConnectOutcome where
  | failure (e : String)
  | connectedR
  | openUrl
  | proxyUrl
  deriving DecidableEq, Repr

def AdapterConnectOutcome.isFailure : AdapterConnectOutcome → Bool
  | .failure _ => true
  | _ => false

/-- Modelled from the spec: adapter.ConnectionContext (adapter package, not
under src/): owning username, connection code, originating host, status,
adapter-supplied metadata (auth URL, system code and name), refresh flag.
The behaviour of the external adapter bound to the context is carried as
data: the outcome its connect primitive would produce and the error, if
any, its disconnect primitive would produce (the latter is ignored by the
service layer). -/
structure ConnectionContext where
  Username : String
  ConnectionCode : String
  host : String
  status : ConnStatus
  authUrl : String
  needsRefreshFlag : Bool
  info : AdapterInfo
  connectOutcome : AdapterConnectOutcome
  disconnectError : Option String
  deriving DecidableEq, Repr

def ConnectionContext.IsConnected (ctx : ConnectionContext) : Bool :=
  match ctx.status with
  | .connected => true
  | _ => false

def ConnectionContext.IsConnecting (ctx : ConnectionContext) : Bool :=
  match ctx.status with
  | .connecting => true
  | _ => false

def ConnectionContext.IsDisconnected (ctx : ConnectionContext) : Bool :=
  match ctx.status with
  | .disconnected => true
  | _ => false

def ConnectionContext.NeedsRefresh (ctx : ConnectionContext) : Bool :=
  ctx.needsRefreshFlag

def ConnectionContext.GetStatus (ctx : ConnectionContext) : ConnStatus :=
  ctx.status

def ConnectionContext.GetAdapterInfo (ctx : ConnectionContext) : AdapterInfo :=
  ctx.info

def ConnectionContext.GetAdapterAuthUrl (ctx : ConnectionContext) : String :=
  ctx.authUrl

/-- UserConnections: per-user map from connection code to context
(connection.go uses a struct with a contexts map). -/
structure UserConnections where
  contexts : List (String × ConnectionContext)
  deriving DecidableEq, Repr

/-- Modelled from the spec: NewUserConnections() creates the lazily
allocated, initially empty per-user collection (section 3). -/
def NewUserConnections : UserConnections := ⟨[]⟩

/-- The outer registry map from username to UserConnections
(the userConnections global of connection.go). -/
abbrev Registry := List (String × UserConnections)

/-- Go map point lookup on an association list. -/
def lookupA {α : Type} : List (String × α) → String → Option α
  | [], _ => none
  | (k, v) :: rest, key => if k = key then some v else lookupA rest key

/-- Go map store m[key] = v on an association list (replaces the existing
binding or appends a new one). -/
def insertA {α : Type} : List (String × α) → String → α → List (String × α)
  | [], key, v => [(key, v)]
  | (k, w) :: rest, key, v =>
      if k = key then (key, v) :: rest else (k, w) :: insertA rest key v

/-- Go delete(m, key) on an association list. -/
def eraseA {α : Type} : List (String × α) → String → List (String × α)
  | [], _ => []
  | (k, w) :: rest, key => if k = key then rest else (k, w) :: eraseA rest key

/-- Modelled from the spec: the authenticated session, carrying the acting
username and the on-behalf-of username (section 6, identity collaborator). -/
structure Session where
  Username : String
  OnBehalfOf : String
  deriving DecidableEq, Repr

/-- Modelled from the spec: the auth.Context passed to every entry point:
the session plus the originating host (c.Gin.Request.Host in the source). -/
structure AuthContext where
  Session : Session
  host : String
  deriving DecidableEq, Repr

/-- Modelled from the spec: the typed service errors of the req package
(Not-Found, Server-Error) plus adapter errors passed through unmodified by
the query dispatch (section 6, error taxonomy). -/
inductive SvcError where
  | notFound (msg : String)
  | serverError (msg : String)
  | adapterErr (msg : String)
  deriving DecidableEq, Repr

/-- Modelled from the spec: the ConnectionStatus constants of the business
package (not under src/). The unset constructor stands for the Go zero
value of the type, produced when a ConnectionResult literal omits the
Status field; its relation to the named constants is not shown in src/. -/
inductive ConnResStatus where
  | unset
  | connected
  | connecting
  | error
  deriving DecidableEq, Repr

/-- Modelled from the spec: the ConnectionAction constants (none / open-url
directive); unset stands for the Go zero value when the field is omitted. -/
inductive ConnResAction where
  | unset
  | actionNone
  | openUrl
  deriving DecidableEq, Repr

/-- ConnectionResult DTO: status, action directive, message (section 3). -/
structure ConnectionResult where
  Status : ConnResStatus
  Action : ConnResAction
  Message : String
  deriving DecidableEq, Repr

/-- ConnectionSpec DTO: target system code and the two parameter bags. -/
structure ConnectionSpec where
  SystemCode : String
  ConfigParams : List (String × String)
  ConnectParams : List (String × String)
  deriving DecidableEq, Repr

/-- ConnectionInfo DTO returned by GetConnections. -/
structure ConnectionInfo where
  Username : String
  ConnectionCode : String
  SystemCode : String
  SystemName : String
  deriving DecidableEq, Repr

/-- The change-notification payload built by sendConnectionChangeMessage. -/
structure ConnectionChangeSystemMessage where
  Username : String
  ConnectionCode : String
  SystemCode : String
  Status : ConnStatus
  deriving DecidableEq, Repr

/-- Modelled from the spec: one entry of the adapter catalog (the adapters
map of the business package, not under src/): the adapter descriptor and
the behaviour NewConnectionContext and the connect primitive would have for
a context bound to it. -/
structure AdapterDef where
  info : AdapterInfo
  newCtxError : Option String
  connectOutcome : AdapterConnectOutcome
  authUrl : String
  deriving DecidableEq, Repr

/-- The adapters catalog: map from system code to adapter descriptor. -/
abbrev AdapterCatalog := List (String × AdapterDef)

/-- Modelled from the spec: the message-bus publisher (msg.SendMessage);
none means the publication succeeded, some e that it failed with error e. -/
abbrev Publisher := ConnectionChangeSystemMessage → Option String

/-- The context adapter.NewConnectionContext builds when it succeeds:
bound to the adapter, caller identity, connection code and originating
host, in the initial Disconnected state. -/
def builtContext (username connectionCode host : String) (ad : AdapterDef) :
    ConnectionContext :=
  ⟨username, connectionCode, host, ConnStatus.disconnected, ad.authUrl,
   false, ad.info, ad.connectOutcome, none⟩

/-- Modelled from the spec: adapter.NewConnectionContext (adapter package,
not under src/): constructs a context bound to the adapter, or fails with
an adapter-defined error (the err checked at connection.go line 150). -/
def NewConnectionContext (username connectionCode host : String)
    (ad : AdapterDef) (configParams connectParams : List (String × String)) :
    Except String ConnectionContext :=
  match ad.newCtxError with
  | some e => Except.error e
  | none => Except.ok (builtContext username connectionCode host ad)

/-- Modelled from the spec: ctx.Connect() of the adapter package: returns
the three-way outcome or an error and updates the context status (section
4.2: success gives Connected, redirect and proxied login give Connecting,
an error gives Error). In Go the update happens in place through the
pointer stored in the registry. -/
def ConnectionContext.doConnect (ctx : ConnectionContext) :
    AdapterConnectOutcome × ConnectionContext :=
  match ctx.connectOutcome with
  | .failure e => (.failure e, { ctx with status := ConnStatus.error })
  | .connectedR => (.connectedR, { ctx with status := ConnStatus.connected })
  | .openUrl => (.openUrl, { ctx with status := ConnStatus.connecting })
  | .proxyUrl => (.proxyUrl, { ctx with status := ConnStatus.connecting })

/-- Trace of the externally visible primitives a service call performs, in
order: storing a context in the registry, invoking the adapter connect
primitive, attempting a change-notification publication, invoking the
adapter disconnect primitive. -/
inductive Event where
  | storeContext (user code : String)
  | adapterConnect (user code : String)
  | publishAttempt (m : ConnectionChangeSystemMessage)
  | adapterDisconnect (user code : String)
  deriving DecidableEq, Repr

/-- The payload sendConnectionChangeMessage builds from a context. -/
def changeMessage (ctx : ConnectionContext) : ConnectionChangeSystemMessage :=
  ⟨ctx.Username, ctx.ConnectionCode, ctx.GetAdapterInfo.code, ctx.GetStatus⟩

/-- sendConnectionChangeMessage (connection.go lines 330-345): builds the
payload and publishes it, returning the publish error, if any. -/
def sendConnectionChangeMessage (publish : Publisher)
    (ctx : ConnectionContext) : Option String :=
  publish (changeMessage ctx)

/-- Result of ConnectionResult mapping from the adapter outcome, i.e. the
switch of connection.go lines 180-194 applied to the initial res value
(Status Error, Action None, empty Message): the failure case corresponds
to a value the switch leaves untouched. -/
def connectMapResult (cr : AdapterConnectOutcome)
    (user connectionCode : String) (ctx2 : ConnectionContext) :
    ConnectionResult :=
  match cr with
  | .connectedR => ⟨ConnResStatus.connected, ConnResAction.actionNone, ""⟩
  | .openUrl =>
      ⟨ConnResStatus.connecting, ConnResAction.openUrl, ctx2.GetAdapterAuthUrl⟩
  | .proxyUrl =>
      ⟨ConnResStatus.connecting, ConnResAction.openUrl,
       "https://tradalia-server:8449/api/system/v1/weblogin/" ++ user ++ "/"
         ++ connectionCode ++ "/login"⟩
  | .failure _ => ⟨ConnResStatus.error, ConnResAction.actionNone, ""⟩

/-- Tail of Connect after a context was successfully constructed
(connection.go lines 157-196): store the context (Go stores a pointer, so
after ctx.Connect() mutates it in place the stored entry carries the
post-connect state; here the post-connect context is stored and the
storeContext event records that storage precedes the adapter call), invoke
the adapter connect primitive, and on a non-error outcome publish the
change notification before mapping the outcome to the result. -/
def connectFinish (publish : Publisher) (reg1 : Registry)
    (user connectionCode : String) (uc : UserConnections)
    (ctx : ConnectionContext) :
    Except SvcError ConnectionResult × Registry × List Event :=
  let p := ctx.doConnect
  let reg2 := insertA reg1 user ⟨insertA uc.contexts connectionCode p.2⟩
  let tr := [Event.storeContext user connectionCode,
             Event.adapterConnect user connectionCode]
  match p.1 with
  | .failure e =>
      (Except.ok ⟨ConnResStatus.error, ConnResAction.actionNone, e⟩, reg2, tr)
  | cr =>
      let m := changeMessage p.2
      match publish m with
      | some e =>
          (Except.ok ⟨ConnResStatus.unset, ConnResAction.unset, e⟩, reg2,
           tr ++ [Event.publishAttempt m])
      | none =>
          (Except.ok (connectMapResult cr user connectionCode p.2), reg2,
           tr ++ [Event.publishAttempt m])

/-- Middle of Connect (connection.go lines 143-155): resolve the adapter
for the system code (Not-Found when absent from the catalog), construct
the context (a construction error is reported as a result with status
Error, nothing stored). -/
def connectResolve (adapters : AdapterCatalog) (publish : Publisher)
    (reg1 : Registry) (c : AuthContext) (connectionCode : String)
    (cs : ConnectionSpec) (uc : UserConnections) :
    Except SvcError ConnectionResult × Registry × List Event :=
  match lookupA adapters cs.SystemCode with
  | none =>
      (Except.error (SvcError.notFound ("System not found: " ++ cs.SystemCode)),
       reg1, [])
  | some ad =>
      match NewConnectionContext c.Session.Username connectionCode c.host ad
          cs.ConfigParams cs.ConnectParams with
      | Except.error e =>
          (Except.ok ⟨ConnResStatus.error, ConnResAction.unset, e⟩, reg1, [])
      | Except.ok ctx =>
          connectFinish publish reg1 c.Session.Username connectionCode uc ctx

/-- Head of Connect after the per-user map was resolved (connection.go
lines 126-141): the idempotent short-circuit on an existing Connected or
Connecting context, falling through to the fresh handshake otherwise. -/
def connectWithUC (adapters : AdapterCatalog) (publish : Publisher)
    (reg1 : Registry) (c : AuthContext) (connectionCode : String)
    (cs : ConnectionSpec) (uc : UserConnections) :
    Except SvcError ConnectionResult × Registry × List Event :=
  match lookupA uc.contexts connectionCode with
  | some ctx =>
      if ctx.IsConnected then
        (Except.ok ⟨ConnResStatus.connected, ConnResAction.unset,
                    "Already connected"⟩, reg1, [])
      else if ctx.IsConnecting then
        (Except.ok ⟨ConnResStatus.connecting, ConnResAction.unset,
                    "Still connecting"⟩, reg1, [])
      else
        connectResolve adapters publish reg1 c connectionCode cs uc
  | none => connectResolve adapters publish reg1 c connectionCode cs uc

/-- Connect (connection.go lines 112-197). The whole body runs under the
registry writer lock, so one call is one atomic step on the registry. A
first-time caller gets an empty UserConnections inserted before anything
else (lines 119-124). Returns the (result, error) pair as an Except, the
updated registry, and the event trace of the call. -/
def Connect (adapters : AdapterCatalog) (publish : Publisher)
    (reg : Registry) (c : AuthContext) (connectionCode : String)
    (cs : ConnectionSpec) :
    Except SvcError ConnectionResult × Registry × List Event :=
  match lookupA reg c.Session.Username with
  | some uc => connectWithUC adapters publish reg c connectionCode cs uc
  | none =>
      connectWithUC adapters publish
        (insertA reg c.Session.Username NewUserConnections) c connectionCode
        cs NewUserConnections

/-- Disconnect (connection.go lines 201-230): Not-Found when the user or
the code is absent; no-op success on a Disconnected context; otherwise the
change notification is published first (a publish failure returns a
Server-Error with nothing removed), then the entry is deleted from the
inner map and the adapter disconnect primitive is invoked with its error
discarded. -/
def Disconnect (publish : Publisher) (reg : Registry) (c : AuthContext)
    (connectionCode : String) :
    Except SvcError Unit × Registry × List Event :=
  match lookupA reg c.Session.Username with
  | none =>
      (Except.error (SvcError.notFound
         ("Connection not found for user: " ++ c.Session.Username)), reg, [])
  | some uc =>
      match lookupA uc.contexts connectionCode with
      | none =>
          (Except.error (SvcError.notFound
             ("Connection not found: " ++ connectionCode)), reg, [])
      | some ctx =>
          if ctx.IsDisconnected then (Except.ok (), reg, [])
          else
            match sendConnectionChangeMessage publish ctx with
            | some e =>
                (Except.error (SvcError.serverError e), reg,
                 [Event.publishAttempt (changeMessage ctx)])
            | none =>
                (Except.ok (),
                 insertA reg c.Session.Username
                   ⟨eraseA uc.contexts connectionCode⟩,
                 [Event.publishAttempt (changeMessage ctx),
                  Event.adapterDisconnect c.Session.Username connectionCode])

/-- GetConnections (connection.go lines 49-71): a detached list of
ConnectionInfo values for the calling user's own contexts; filter, offset
and limit are accepted and unused. -/
def GetConnections (reg : Registry) (c : AuthContext)
    (filter : List (String × String)) (offset limit : Int) :
    List ConnectionInfo :=
  match lookupA reg c.Session.Username with
  | none => []
  | some uc =>
      uc.contexts.map (fun p =>
        ⟨p.2.Username, p.2.ConnectionCode, p.2.GetAdapterInfo.code,
         p.2.GetAdapterInfo.name⟩)

/-- GetConnectionsToRefresh (connection.go lines 75-90): walk every user's
every context and collect those whose NeedsRefresh() reports true. -/
def GetConnectionsToRefresh (reg : Registry) : List ConnectionContext :=
  reg.flatMap (fun p =>
    (p.2.contexts.map Prod.snd).filter ConnectionContext.NeedsRefresh)

/-- getConnectionContext (connection.go lines 349-366): the query-dispatch
helper; looks up the session's on-behalf-of identity, Not-Found when that
user or the code is absent. -/
def getConnectionContext (reg : Registry) (c : AuthContext)
    (connectionCode : String) : Except SvcError ConnectionContext :=
  match lookupA reg c.Session.OnBehalfOf with
  | none =>
      Except.error (SvcError.notFound
        ("Connection not found for user: " ++ c.Session.OnBehalfOf))
  | some uc =>
      match lookupA uc.contexts connectionCode with
      | none =>
          Except.error (SvcError.notFound
            ("Connection not found: " ++ connectionCode))
      | some ctx => Except.ok ctx

/-- Adapter DTOs of the query surface (adapter package, not under src/);
their content is irrelevant to the dispatch layer. -/
structure RootSymbol where
  val : String
  deriving DecidableEq, Repr

structure Instrument where
  val : String
  deriving DecidableEq, Repr

structure PriceBars where
  val : String
  deriving DecidableEq, Repr

structure Account where
  val : String
  deriving DecidableEq, Repr

/-- Modelled from the spec: datatype.IntDate of the core package. -/
structure IntDate where
  val : Int
  deriving DecidableEq, Repr

structure TestAdapterRequest where
  Service : String
  Query : String
  deriving DecidableEq, Repr

/-- The adapter's result/error pair is returned unmodified by the dispatch
layer; an adapter error surfaces as an adapterErr. -/
def liftAdapter {α : Type} : Except String α → Except SvcError α
  | Except.error e => Except.error (SvcError.adapterErr e)
  | Except.ok a => Except.ok a

/-- GetRootSymbols (connection.go lines 238-245): resolve via
getConnectionContext, then delegate verbatim to the adapter (the delegate
parameter stands for the externally implemented ctx.GetRootSymbols). -/
def GetRootSymbols (reg : Registry) (c : AuthContext)
    (connectionCode filter : String)
    (dl : ConnectionContext → String → Except String (List RootSymbol)) :
    Except SvcError (List RootSymbol) :=
  match getConnectionContext reg c connectionCode with
  | Except.error e => Except.error e
  | Except.ok ctx => liftAdapter (dl ctx filter)

/-- GetRootSymbol (connection.go lines 249-256). -/
def GetRootSymbol (reg : Registry) (c : AuthContext)
    (connectionCode root : String)
    (dl : ConnectionContext → String → Except String RootSymbol) :
    Except SvcError RootSymbol :=
  match getConnectionContext reg c connectionCode with
  | Except.error e => Except.error e
  | Except.ok ctx => liftAdapter (dl ctx root)

/-- GetInstruments (connection.go lines 260-267). -/
def GetInstruments (reg : Registry) (c : AuthContext)
    (connectionCode root : String)
    (dl : ConnectionContext → String → Except String (List Instrument)) :
    Except SvcError (List Instrument) :=
  match getConnectionContext reg c connectionCode with
  | Except.error e => Except.error e
  | Except.ok ctx => liftAdapter (dl ctx root)

/-- GetPriceBars (connection.go lines 271-278). -/
def GetPriceBars (reg : Registry) (c : AuthContext)
    (connectionCode symbol : String) (date : IntDate)
    (dl : ConnectionContext → String → IntDate → Except String PriceBars) :
    Except SvcError PriceBars :=
  match getConnectionContext reg c connectionCode with
  | Except.error e => Except.error e
  | Except.ok ctx => liftAdapter (dl ctx symbol date)

/-- GetAccounts (connection.go lines 282-289). -/
def GetAccounts (reg : Registry) (c : AuthContext) (connectionCode : String)
    (dl : ConnectionContext → Except String (List Account)) :
    Except SvcError (List Account) :=
  match getConnectionContext reg c connectionCode with
  | Except.error e => Except.error e
  | Except.ok ctx => liftAdapter (dl ctx)

/-- TestAdapter (connection.go lines 305-322): unlike the query dispatch,
resolves the acting caller's own username, then delegates. -/
def TestAdapter (reg : Registry) (c : AuthContext) (connectionCode : String)
    (tar : TestAdapterRequest)
    (dl : ConnectionContext → String → String → Except String String) :
    Except SvcError String :=
  match lookupA reg c.Session.Username with
  | none =>
      Except.error (SvcError.notFound
        ("Connection not found for user: " ++ c.Session.Username))
  | some uc =>
      match lookupA uc.contexts connectionCode with
      | none =>
          Except.error (SvcError.notFound
            ("Connection not found: " ++ connectionCode))
      | some ctx => liftAdapter (dl ctx tar.Service tar.Query)

/-- Spec-side helper for theorem statements: the context stored for a
(user, code) pair, if any. -/
def resolveFor (reg : Registry) (user connectionCode : String) :
    Option ConnectionContext :=
  match lookupA reg user with
  | none => none
  | some uc => lookupA uc.contexts connectionCode

/-- Number of adapter connect invocations recorded in a trace. -/
def countAdapterConnects : List Event → Nat
  | [] => 0
  | Event.adapterConnect _ _ :: rest => countAdapterConnects rest + 1
  | _ :: rest => countAdapterConnects rest

/-- n Connect calls with identical arguments executed one after the other
(the source holds the registry writer lock for the whole body of Connect,
so concurrent calls are serialized and any interleaving is one such
sequence). Returns the final registry, the total number of adapter connect
invocations, and the list of per-call results. -/
def runConnects (adapters : AdapterCatalog) (publish : Publisher)
    (c : AuthContext) (connectionCode : String) (cs : ConnectionSpec) :
    Nat → Registry →
    Registry × Nat × List (Except SvcError ConnectionResult)
  | 0, reg => (reg, 0, [])
  | Nat.succ n, reg =>
      let r := Connect adapters publish reg c connectionCode cs
      let rest := runConnects adapters publish c connectionCode cs n r.2.1
      (rest.1, countAdapterConnects r.2.2 + rest.2.1, r.1 :: rest.2.2)

/-! ### Helper lemmas about the association-list map operations -/

theorem lookupA_insertA_self {α : Type} (m : List (String × α)) (k : String)
    (v : α) : lookupA (insertA m k v) k = some v := by
  induction m with
  | nil => simp [insertA, lookupA]
  | cons p rest ih =>
      by_cases h : p.1 = k
      · simp [insertA, h, lookupA]
      · simp only [insertA]
        rw [if_neg (by simpa using h)]
        simp [lookupA, h, ih]

theorem lookupA_insertA_ne {α : Type} (m : List (String × α)) (k key : String)
    (v : α) (h : ¬k = key) :
    lookupA (insertA m k v) key = lookupA m key := by
  induction m with
  | nil => simp [insertA, lookupA, h]
  | cons p rest ih =>
      by_cases hp : p.1 = k
      · simp only [insertA]
        rw [if_pos (by simpa using hp)]
        simp [lookupA, h, hp]
      · simp only [insertA]
        rw [if_neg (by simpa using hp)]
        simp [lookupA, ih]

theorem lookupA_isSome_insertA {α : Type} (m : List (String × α))
    (k key : String) (v : α) (h : (lookupA m key).isSome = true) :
    (lookupA (insertA m k v) key).isSome = true := by
  by_cases hk : k = key
  · subst hk; simp [lookupA_insertA_self]
  · rw [lookupA_insertA_ne m k key v hk]; exact h

theorem insertA_insertA_self {α : Type} (m : List (String × α)) (k : String)
    (v w : α) : insertA (insertA m k v) k w = insertA m k w := by
  induction m with
  | nil => simp [insertA]
  | cons p rest ih =>
      obtain ⟨k', v'⟩ := p
      by_cases hp : k' = k
      · simp [insertA, hp]
      · simp [insertA, hp, ih]

/-! ### Helper lemmas about the Connect pipeline -/

/-- When the stored context is neither Connected nor Connecting (or there
is none), Connect falls through the short-circuit to the fresh path. -/
theorem connectWithUC_fresh (adapters : AdapterCatalog) (publish : Publisher)
    (reg1 : Registry) (c : AuthContext) (code : String) (cs : ConnectionSpec)
    (uc : UserConnections)
    (hshort : ∀ ctx, lookupA uc.contexts code = some ctx →
        ctx.IsConnected = false ∧ ctx.IsConnecting = false) :
    connectWithUC adapters publish reg1 c code cs uc =
      connectResolve adapters publish reg1 c code cs uc := by
  unfold connectWithUC
  cases hctx : lookupA uc.contexts code with
  | none => rfl
  | some ctx =>
      obtain ⟨h1, h2⟩ := hshort ctx hctx
      simp [h1, h2]

/-- Resolution step when the catalog knows the system code and the context
construction succeeds. -/
theorem connectResolve_found (adapters : AdapterCatalog) (publish : Publisher)
    (reg1 : Registry) (c : AuthContext) (code : String) (cs : ConnectionSpec)
    (uc : UserConnections) (ad : AdapterDef)
    (had : lookupA adapters cs.SystemCode = some ad)
    (hctor : ad.newCtxError = none) :
    connectResolve adapters publish reg1 c code cs uc =
      connectFinish publish reg1 c.Session.Username code uc
        (builtContext c.Session.Username code c.host ad) := by
  simp [connectResolve, NewConnectionContext, had, hctor]

/-- Every Connect call either leaves the registry untouched or overwrites
the calling user's own outer entry. -/
theorem connect_shape (adapters : AdapterCatalog) (publish : Publisher)
    (reg : Registry) (c : AuthContext) (code : String) (cs : ConnectionSpec) :
    ∃ uc reg1,
      Connect adapters publish reg c code cs =
        connectWithUC adapters publish reg1 c code cs uc ∧
      (reg1 = reg ∨ reg1 = insertA reg c.Session.Username NewUserConnections) ∧
      (∀ ctx, lookupA uc.contexts code = some ctx →
        resolveFor reg c.Session.Username code = some ctx) := by
  unfold Connect
  cases hreg : lookupA reg c.Session.Username with
  | some uc =>
      exact ⟨uc, reg, rfl, Or.inl rfl,
        fun ctx h => by simpa [resolveFor, hreg] using h⟩
  | none =>
      refine ⟨NewUserConnections,
        insertA reg c.Session.Username NewUserConnections, rfl, Or.inr rfl,
        fun ctx h => ?_⟩
      simp [NewUserConnections, lookupA] at h

/-- The registry and the head of the trace after connectFinish, in every
outcome and publish case: the post-connect context is stored under the
caller's (user, code) pair and the storage precedes the adapter connect
invocation. -/
theorem connectFinish_reg_trace (publish : Publisher) (reg1 : Registry)
    (user code : String) (uc : UserConnections) (ctx : ConnectionContext) :
    (connectFinish publish reg1 user code uc ctx).2.1 =
      insertA reg1 user ⟨insertA uc.contexts code ctx.doConnect.2⟩ ∧
    ∃ rest, (connectFinish publish reg1 user code uc ctx).2.2 =
      Event.storeContext user code :: Event.adapterConnect user code :: rest := by
  unfold connectFinish
  cases hc : ctx.connectOutcome with
  | failure e => simp [ConnectionContext.doConnect, hc]
  | connectedR =>
      cases hp : publish (changeMessage ctx.doConnect.2) with
      | none => simp_all [ConnectionContext.doConnect]
      | some e => simp_all [ConnectionContext.doConnect]
  | openUrl =>
      cases hp : publish (changeMessage ctx.doConnect.2) with
      | none => simp_all [ConnectionContext.doConnect]
      | some e => simp_all [ConnectionContext.doConnect]
  | proxyUrl =>
      cases hp : publish (changeMessage ctx.doConnect.2) with
      | none => simp_all [ConnectionContext.doConnect]
      | some e => simp_all [ConnectionContext.doConnect]

/-- connectFinish when the adapter connect succeeds but the publication
fails: the call aborts with a plain result carrying the publish error and
zero-valued status and action. -/
theorem connectFinish_publishFail (publish : Publisher) (reg1 : Registry)
    (user code : String) (uc : UserConnections) (ctx : ConnectionContext)
    (e : String) (hok : ctx.connectOutcome.isFailure = false)
    (hpub : publish (changeMessage ctx.doConnect.2) = some e) :
    connectFinish publish reg1 user code uc ctx =
      (Except.ok ⟨ConnResStatus.unset, ConnResAction.unset, e⟩,
       insertA reg1 user ⟨insertA uc.contexts code ctx.doConnect.2⟩,
       [Event.storeContext user code, Event.adapterConnect user code,
        Event.publishAttempt (changeMessage ctx.doConnect.2)]) := by
  unfold connectFinish
  cases hc : ctx.connectOutcome with
  | failure e' => simp [hc, AdapterConnectOutcome.isFailure] at hok
  | connectedR =>
      simp [ConnectionContext.doConnect, hc] at hpub ⊢
      simp [hpub]
  | openUrl =>
      simp [ConnectionContext.doConnect, hc] at hpub ⊢
      simp [hpub]
  | proxyUrl =>
      simp [ConnectionContext.doConnect, hc] at hpub ⊢
      simp [hpub]

/-- The trace of connectFinish always records exactly one adapter connect
invocation. -/
theorem connectFinish_count (publish : Publisher) (reg1 : Registry)
    (user code : String) (uc : UserConnections) (ctx : ConnectionContext) :
    countAdapterConnects (connectFinish publish reg1 user code uc ctx).2.2 = 1 := by
  unfold connectFinish
  cases hc : ctx.connectOutcome with
  | failure e => simp [ConnectionContext.doConnect, hc, countAdapterConnects]
  | connectedR =>
      cases hp : publish (changeMessage ctx.doConnect.2) with
      | none => simp_all [ConnectionContext.doConnect, countAdapterConnects]
      | some e => simp_all [ConnectionContext.doConnect, countAdapterConnects]
  | openUrl =>
      cases hp : publish (changeMessage ctx.doConnect.2) with
      | none => simp_all [ConnectionContext.doConnect, countAdapterConnects]
      | some e => simp_all [ConnectionContext.doConnect, countAdapterConnects]
  | proxyUrl =>
      cases hp : publish (changeMessage ctx.doConnect.2) with
      | none => simp_all [ConnectionContext.doConnect, countAdapterConnects]
      | some e => simp_all [ConnectionContext.doConnect, countAdapterConnects]

/-- A successful adapter connect leaves the stored context Connected or
Connecting. -/
theorem doConnect_status (ctx : ConnectionContext)
    (hok : ctx.connectOutcome.isFailure = false) :
    ctx.doConnect.2.status = ConnStatus.connected ∨
    ctx.doConnect.2.status = ConnStatus.connecting := by
  cases hc : ctx.connectOutcome with
  | failure e => simp [hc, AdapterConnectOutcome.isFailure] at hok
  | connectedR => simp [ConnectionContext.doConnect, hc]
  | openUrl => simp [ConnectionContext.doConnect, hc]
  | proxyUrl => simp [ConnectionContext.doConnect, hc]

/-- A Connect call that finds a live (Connected or Connecting) context
short-circuits: one of the two no-op results, registry untouched, empty
trace. -/
theorem connect_live (adapters : AdapterCatalog) (publish : Publisher)
    (reg : Registry) (c : AuthContext) (code : String) (cs : ConnectionSpec)
    (uc : UserConnections) (ctx : ConnectionContext)
    (hu : lookupA reg c.Session.Username = some uc)
    (hc : lookupA uc.contexts code = some ctx)
    (hl : ctx.status = ConnStatus.connected ∨
      ctx.status = ConnStatus.connecting) :
    ((Connect adapters publish reg c code cs).1 =
        Except.ok ⟨ConnResStatus.connected, ConnResAction.unset,
          "Already connected"⟩ ∨
      (Connect adapters publish reg c code cs).1 =
        Except.ok ⟨ConnResStatus.connecting, ConnResAction.unset,
          "Still connecting"⟩) ∧
    (Connect adapters publish reg c code cs).2.1 = reg ∧
    (Connect adapters publish reg c code cs).2.2 = [] := by
  have h1 : Connect adapters publish reg c code cs =
      connectWithUC adapters publish reg c code cs uc := by
    unfold Connect; rw [hu]
  rw [h1]
  unfold connectWithUC
  rw [hc]
  cases hl with
  | inl h => simp [ConnectionContext.IsConnected, h]
  | inr h =>
      simp [ConnectionContext.IsConnected, ConnectionContext.IsConnecting, h]

/-- getConnectionContext fails Not-Found exactly when the on-behalf-of
lookup fails. -/
theorem getConnectionContext_none (reg : Registry) (c : AuthContext)
    (code : String)
    (h : resolveFor reg c.Session.OnBehalfOf code = none) :
    ∃ m, getConnectionContext reg c code =
      Except.error (SvcError.notFound m) := by
  unfold getConnectionContext
  unfold resolveFor at h
  revert h
  cases hu : lookupA reg c.Session.OnBehalfOf with
  | none => intro h; exact ⟨_, rfl⟩
  | some uc =>
      intro h
      simp only at h ⊢
      rw [h]
      exact ⟨_, rfl⟩

theorem getConnectionContext_some (reg : Registry) (c : AuthContext)
    (code : String) (ctx : ConnectionContext)
    (h : resolveFor reg c.Session.OnBehalfOf code = some ctx) :
    getConnectionContext reg c code = Except.ok ctx := by
  unfold getConnectionContext
  unfold resolveFor at h
  revert h
  cases hu : lookupA reg c.Session.OnBehalfOf with
  | none => intro h; exact absurd h (by simp)
  | some uc =>
      intro h
      simp only at h ⊢
      rw [h]

/-! ### Concrete fixtures used by the witnesses and counterexamples -/

def adInfoEx : AdapterInfo := ⟨"sys1", "System One"⟩

def adOkEx : AdapterDef :=
  ⟨adInfoEx, none, AdapterConnectOutcome.connectedR, "https://auth.example/x"⟩

def adFailEx : AdapterDef :=
  ⟨⟨"sysf", "SysFail"⟩, none, AdapterConnectOutcome.failure "denied", ""⟩

def adsEx : AdapterCatalog := [("sys1", adOkEx), ("sysf", adFailEx)]

def csEx : ConnectionSpec := ⟨"sys1", [], []⟩

def csFailEx : ConnectionSpec := ⟨"sysf", [], []⟩

def cAlice : AuthContext := ⟨⟨"alice", "alice"⟩, "host1"⟩

def pubOk : Publisher := fun _ => none

def pubFail : Publisher := fun _ => some "boom"

def ctxConnEx : ConnectionContext :=
  ⟨"alice", "main", "host1", ConnStatus.connected, "", false, adInfoEx,
   AdapterConnectOutcome.connectedR, none⟩

def regConnEx : Registry := [("alice", ⟨[("main", ctxConnEx)]⟩)]

def ctxDiscEx : ConnectionContext :=
  ⟨"alice", "main", "host1", ConnStatus.disconnected, "", false, adInfoEx,
   AdapterConnectOutcome.connectedR, none⟩

def regDiscEx : Registry := [("alice", ⟨[("main", ctxDiscEx)]⟩)]

def ctxErrEx : ConnectionContext :=
  ⟨"alice", "main", "host1", ConnStatus.error, "", false, adInfoEx,
   AdapterConnectOutcome.connectedR, none⟩

def regErrEx : Registry := [("alice", ⟨[("main", ctxErrEx)]⟩)]

/-- A caller acting as alice on behalf of bob. -/
def cActingEx : AuthContext := ⟨⟨"alice", "bob"⟩, "host1"⟩

def ctxBobEx : ConnectionContext :=
  ⟨"bob", "main", "host2", ConnStatus.connected, "", false, adInfoEx,
   AdapterConnectOutcome.connectedR, none⟩

def regBobEx : Registry := [("bob", ⟨[("main", ctxBobEx)]⟩)]

/-! ### Claims -/

/-- C1, counterexample. The claim states that a Connect call whose adapter
connect succeeds but whose change-notification publish fails returns a
typed Server-Error. In the code (connection.go lines 173-178) the call
instead returns a normal ConnectionResult with a nil error: at this
concrete input (empty registry, known adapter, successful connect, failing
publisher) the returned pair is ok with the publish error as the message
and zero-valued status and action, not an error value. -/
theorem C1_counterexample :
    (Connect adsEx pubFail [] cAlice "main" csEx).1 =
      Except.ok ⟨ConnResStatus.unset, ConnResAction.unset, "boom"⟩ := rfl

/-- C1, amended: for every Connect call whose adapter connect primitive
succeeds but whose change-notification publish fails, the call aborts and
returns, with a nil error, a normal ConnectionResult whose Message is the
publish error and whose Status and Action are left at their zero values;
the adapter connect already succeeded and the post-connect context remains
stored in the registry. -/
theorem C1_amended (adapters : AdapterCatalog) (publish : Publisher)
    (reg : Registry) (c : AuthContext) (code : String) (cs : ConnectionSpec)
    (ad : AdapterDef) (e : String)
    (hshort : ∀ ctx, resolveFor reg c.Session.Username code = some ctx →
        ctx.IsConnected = false ∧ ctx.IsConnecting = false)
    (had : lookupA adapters cs.SystemCode = some ad)
    (hctor : ad.newCtxError = none)
    (hok : ad.connectOutcome.isFailure = false)
    (hpub : publish (changeMessage
        (builtContext c.Session.Username code c.host ad).doConnect.2) = some e) :
    (Connect adapters publish reg c code cs).1 =
      Except.ok ⟨ConnResStatus.unset, ConnResAction.unset, e⟩ ∧
    resolveFor (Connect adapters publish reg c code cs).2.1
        c.Session.Username code =
      some ((builtContext c.Session.Username code c.host ad).doConnect.2) := by
  obtain ⟨uc, reg1, heq, hreg1, hres⟩ :=
    connect_shape adapters publish reg c code cs
  have hsh : ∀ ctx, lookupA uc.contexts code = some ctx →
      ctx.IsConnected = false ∧ ctx.IsConnecting = false :=
    fun ctx h => hshort ctx (hres ctx h)
  rw [heq, connectWithUC_fresh _ _ _ _ _ _ _ hsh,
      connectResolve_found _ _ _ _ _ _ _ _ had hctor,
      connectFinish_publishFail _ _ _ _ _ _ _ hok hpub]
  exact ⟨rfl, by simp [resolveFor, lookupA_insertA_self]⟩

/-- C1, witness: concrete instance of the amended claim. -/
theorem C1_witness :
    (Connect adsEx pubFail [] cAlice "main" csEx).1 =
      Except.ok ⟨ConnResStatus.unset, ConnResAction.unset, "boom"⟩ ∧
    resolveFor (Connect adsEx pubFail [] cAlice "main" csEx).2.1
        "alice" "main" =
      some ((builtContext "alice" "main" "host1" adOkEx).doConnect.2) :=
  C1_amended adsEx pubFail [] cAlice "main" csEx adOkEx "boom"
    (fun ctx h => by simp [resolveFor, lookupA] at h) rfl rfl rfl rfl

/-- C2: Disconnect on an existing, not-Disconnected context publishes the
change notification first; a publish failure returns a Server-Error with
the entry left in place; on publish success the entry is removed from the
inner map, the adapter disconnect primitive is invoked after the
publication (its error, carried by the context and never read, is
ignored), and the call returns success. A missing user or missing code
fails Not-Found. -/
theorem C2_thm (publish : Publisher) (reg : Registry) (c : AuthContext)
    (code : String) :
    (lookupA reg c.Session.Username = none →
       Disconnect publish reg c code =
         (Except.error (SvcError.notFound
            ("Connection not found for user: " ++ c.Session.Username)),
          reg, [])) ∧
    (∀ uc, lookupA reg c.Session.Username = some uc →
       lookupA uc.contexts code = none →
       Disconnect publish reg c code =
         (Except.error (SvcError.notFound ("Connection not found: " ++ code)),
          reg, [])) ∧
    (∀ uc ctx e, lookupA reg c.Session.Username = some uc →
       lookupA uc.contexts code = some ctx → ctx.IsDisconnected = false →
       publish (changeMessage ctx) = some e →
       Disconnect publish reg c code =
         (Except.error (SvcError.serverError e), reg,
          [Event.publishAttempt (changeMessage ctx)])) ∧
    (∀ uc ctx, lookupA reg c.Session.Username = some uc →
       lookupA uc.contexts code = some ctx → ctx.IsDisconnected = false →
       publish (changeMessage ctx) = none →
       Disconnect publish reg c code =
         (Except.ok (),
          insertA reg c.Session.Username ⟨eraseA uc.contexts code⟩,
          [Event.publishAttempt (changeMessage ctx),
           Event.adapterDisconnect c.Session.Username code])) := by
  refine ⟨fun h => ?_, fun uc hu hc => ?_, fun uc ctx e hu hc hd hp => ?_,
    fun uc ctx hu hc hd hp => ?_⟩
  · simp [Disconnect, h]
  · simp [Disconnect, hu, hc]
  · simp [Disconnect, sendConnectionChangeMessage, hu, hc, hd, hp]
  · simp [Disconnect, sendConnectionChangeMessage, hu, hc, hd, hp]

/-- C2, witness: successful disconnect of a Connected entry at a concrete
registry. -/
theorem C2_witness :
    Disconnect pubOk regConnEx cAlice "main" =
      (Except.ok (), [("alice", ⟨[]⟩)],
       [Event.publishAttempt ⟨"alice", "main", "sys1", ConnStatus.connected⟩,
        Event.adapterDisconnect "alice" "main"]) :=
  (C2_thm pubOk regConnEx cAlice "main").2.2.2 ⟨[("main", ctxConnEx)]⟩
    ctxConnEx rfl rfl rfl rfl

/-- C3, counterexample. The claim states that Disconnect on a (user, code)
pair with no entry in the registry returns success; on the empty registry
the code instead returns a Not-Found error (connection.go lines 207-209). -/
theorem C3_counterexample :
    Disconnect pubOk [] cAlice "main" =
      (Except.error (SvcError.notFound "Connection not found for user: alice"),
       [], []) := rfl

/-- C3, amended: Disconnect on a (user, code) pair with no registry entry
or no context for that code returns a Not-Found error, not success;
Disconnect on an entry whose status is Disconnected returns success; in
all these cases no adapter disconnect is invoked, no notification is
published, and the registry is unchanged. -/
theorem C3_amended (publish : Publisher) (reg : Registry) (c : AuthContext)
    (code : String) :
    (lookupA reg c.Session.Username = none →
       Disconnect publish reg c code =
         (Except.error (SvcError.notFound
            ("Connection not found for user: " ++ c.Session.Username)),
          reg, [])) ∧
    (∀ uc, lookupA reg c.Session.Username = some uc →
       lookupA uc.contexts code = none →
       Disconnect publish reg c code =
         (Except.error (SvcError.notFound ("Connection not found: " ++ code)),
          reg, [])) ∧
    (∀ uc ctx, lookupA reg c.Session.Username = some uc →
       lookupA uc.contexts code = some ctx →
       ctx.IsDisconnected = true →
       Disconnect publish reg c code = (Except.ok (), reg, [])) := by
  refine ⟨fun h => ?_, fun uc hu hc => ?_, fun uc ctx hu hc hd => ?_⟩
  · simp [Disconnect, h]
  · simp [Disconnect, hu, hc]
  · simp [Disconnect, hu, hc, hd]

/-- C3, witness: no-op success on a Disconnected entry. -/
theorem C3_witness :
    Disconnect pubOk regDiscEx cAlice "main" = (Except.ok (), regDiscEx, []) :=
  (C3_amended pubOk regDiscEx cAlice "main").2.2 ⟨[("main", ctxDiscEx)]⟩
    ctxDiscEx rfl rfl rfl

/-- C4: a Connect call that finds an existing context in Connected
(respectively Connecting) status short-circuits to the no-op result with
status Connected and message Already connected (respectively status
Connecting and message Still connecting), with no error, an unchanged
registry, and no adapter invocation (empty trace). -/
theorem C4_thm (adapters : AdapterCatalog) (publish : Publisher)
    (reg : Registry) (c : AuthContext) (code : String) (cs : ConnectionSpec)
    (uc : UserConnections) (ctx : ConnectionContext)
    (hu : lookupA reg c.Session.Username = some uc)
    (hc : lookupA uc.contexts code = some ctx) :
    (ctx.status = ConnStatus.connected →
       Connect adapters publish reg c code cs =
         (Except.ok ⟨ConnResStatus.connected, ConnResAction.unset,
            "Already connected"⟩, reg, [])) ∧
    (ctx.status = ConnStatus.connecting →
       Connect adapters publish reg c code cs =
         (Except.ok ⟨ConnResStatus.connecting, ConnResAction.unset,
            "Still connecting"⟩, reg, [])) := by
  have h1 : Connect adapters publish reg c code cs =
      connectWithUC adapters publish reg c code cs uc := by
    unfold Connect; rw [hu]
  rw [h1]
  unfold connectWithUC
  rw [hc]
  constructor
  · intro h; simp [ConnectionContext.IsConnected, h]
  · intro h
    simp [ConnectionContext.IsConnected, ConnectionContext.IsConnecting, h]

/-- C4, witness: re-entry on a Connected entry. -/
theorem C4_witness :
    Connect adsEx pubOk regConnEx cAlice "main" csEx =
      (Except.ok ⟨ConnResStatus.connected, ConnResAction.unset,
         "Already connected"⟩, regConnEx, []) :=
  (C4_thm adsEx pubOk regConnEx cAlice "main" csEx ⟨[("main", ctxConnEx)]⟩
    ctxConnEx rfl rfl).1 rfl

/-- C5: a Connect call that passes the short-circuit check: an unknown
system code fails Not-Found naming the code with no adapter invocation
(empty trace); a known code whose context construction succeeds stores the
fresh post-connect context under the (user, code) pair — overwriting any
prior non-live entry — and the trace records the storage before the
adapter connect invocation, so a fresh full handshake is performed. -/
theorem C5_thm (adapters : AdapterCatalog) (publish : Publisher)
    (reg : Registry) (c : AuthContext) (code : String) (cs : ConnectionSpec)
    (hshort : ∀ ctx, resolveFor reg c.Session.Username code = some ctx →
        ctx.IsConnected = false ∧ ctx.IsConnecting = false) :
    (lookupA adapters cs.SystemCode = none →
       (Connect adapters publish reg c code cs).1 =
         Except.error (SvcError.notFound
           ("System not found: " ++ cs.SystemCode)) ∧
       (Connect adapters publish reg c code cs).2.2 = []) ∧
    (∀ ad, lookupA adapters cs.SystemCode = some ad → ad.newCtxError = none →
       resolveFor (Connect adapters publish reg c code cs).2.1
           c.Session.Username code =
         some ((builtContext c.Session.Username code c.host ad).doConnect.2) ∧
       ∃ rest, (Connect adapters publish reg c code cs).2.2 =
         Event.storeContext c.Session.Username code ::
           Event.adapterConnect c.Session.Username code :: rest) := by
  obtain ⟨uc, reg1, heq, hreg1, hres⟩ :=
    connect_shape adapters publish reg c code cs
  have hsh : ∀ ctx, lookupA uc.contexts code = some ctx →
      ctx.IsConnected = false ∧ ctx.IsConnecting = false :=
    fun ctx h => hshort ctx (hres ctx h)
  rw [heq, connectWithUC_fresh _ _ _ _ _ _ _ hsh]
  constructor
  · intro h
    constructor
    · simp [connectResolve, h]
    · simp [connectResolve, h]
  · intro ad had hctor
    rw [connectResolve_found _ _ _ _ _ _ _ _ had hctor]
    obtain ⟨hr, rest, ht⟩ := connectFinish_reg_trace publish reg1
      c.Session.Username code uc (builtContext c.Session.Username code c.host ad)
    constructor
    · rw [hr]; simp [resolveFor, lookupA_insertA_self]
    · exact ⟨rest, ht⟩

/-- C5, witness: Connect over a prior Error-status entry resolves the
adapter, overwrites the entry and performs the handshake. -/
theorem C5_witness :
    resolveFor (Connect adsEx pubOk regErrEx cAlice "main" csEx).2.1
        "alice" "main" =
      some ((builtContext "alice" "main" "host1" adOkEx).doConnect.2) ∧
    ∃ rest, (Connect adsEx pubOk regErrEx cAlice "main" csEx).2.2 =
      Event.storeContext "alice" "main" ::
        Event.adapterConnect "alice" "main" :: rest :=
  (C5_thm adsEx pubOk regErrEx cAlice "main" csEx
    (fun ctx h => by
      injection h with h2
      subst h2
      exact ⟨rfl, rfl⟩)).2 adOkEx rfl rfl

/-- TestAdapter resolution fails Not-Found exactly when the acting
caller's own (user, code) lookup fails. -/
theorem testAdapter_resolution_none (reg : Registry) (c : AuthContext)
    (code : String) (tar : TestAdapterRequest)
    (dT : ConnectionContext → String → String → Except String String)
    (h : resolveFor reg c.Session.Username code = none) :
    ∃ m, TestAdapter reg c code tar dT =
      Except.error (SvcError.notFound m) := by
  unfold TestAdapter
  unfold resolveFor at h
  revert h
  cases hu : lookupA reg c.Session.Username with
  | none => intro h; exact ⟨_, rfl⟩
  | some uc =>
      intro h
      simp only at h ⊢
      rw [h]
      exact ⟨_, rfl⟩

theorem testAdapter_resolution_some (reg : Registry) (c : AuthContext)
    (code : String) (tar : TestAdapterRequest)
    (dT : ConnectionContext → String → String → Except String String)
    (ctx : ConnectionContext)
    (h : resolveFor reg c.Session.Username code = some ctx) :
    TestAdapter reg c code tar dT =
      liftAdapter (dT ctx tar.Service tar.Query) := by
  unfold TestAdapter
  unfold resolveFor at h
  revert h
  cases hu : lookupA reg c.Session.Username with
  | none => intro h; exact absurd h (by simp)
  | some uc =>
      intro h
      simp only at h ⊢
      rw [h]

/-- C6: the root-symbol, instrument, price-bar and account queries resolve
their context through the on-behalf-of identity of the session (failing
Not-Found exactly when that user or code is absent, delegating to the
adapter otherwise, and ignoring the acting username entirely), while
TestAdapter resolves the acting caller's own username, and Connect and
Disconnect depend on the acting username but not on the on-behalf-of
identity. -/
theorem C6_thm (reg : Registry) (c : AuthContext)
    (code filter root symbol : String) (date : IntDate)
    (tar : TestAdapterRequest)
    (dRS : ConnectionContext → String → Except String (List RootSymbol))
    (dR : ConnectionContext → String → Except String RootSymbol)
    (dI : ConnectionContext → String → Except String (List Instrument))
    (dP : ConnectionContext → String → IntDate → Except String PriceBars)
    (dA : ConnectionContext → Except String (List Account))
    (dT : ConnectionContext → String → String → Except String String) :
    (resolveFor reg c.Session.OnBehalfOf code = none →
       (∃ m, GetRootSymbols reg c code filter dRS =
          Except.error (SvcError.notFound m)) ∧
       (∃ m, GetRootSymbol reg c code root dR =
          Except.error (SvcError.notFound m)) ∧
       (∃ m, GetInstruments reg c code root dI =
          Except.error (SvcError.notFound m)) ∧
       (∃ m, GetPriceBars reg c code symbol date dP =
          Except.error (SvcError.notFound m)) ∧
       (∃ m, GetAccounts reg c code dA =
          Except.error (SvcError.notFound m))) ∧
    (∀ ctx, resolveFor reg c.Session.OnBehalfOf code = some ctx →
       GetRootSymbols reg c code filter dRS = liftAdapter (dRS ctx filter) ∧
       GetRootSymbol reg c code root dR = liftAdapter (dR ctx root) ∧
       GetInstruments reg c code root dI = liftAdapter (dI ctx root) ∧
       GetPriceBars reg c code symbol date dP =
         liftAdapter (dP ctx symbol date) ∧
       GetAccounts reg c code dA = liftAdapter (dA ctx)) ∧
    (resolveFor reg c.Session.Username code = none →
       ∃ m, TestAdapter reg c code tar dT =
         Except.error (SvcError.notFound m)) ∧
    (∀ ctx, resolveFor reg c.Session.Username code = some ctx →
       TestAdapter reg c code tar dT =
         liftAdapter (dT ctx tar.Service tar.Query)) ∧
    (∀ u u' o h2,
       GetRootSymbols reg ⟨⟨u, o⟩, h2⟩ code filter dRS =
         GetRootSymbols reg ⟨⟨u', o⟩, h2⟩ code filter dRS ∧
       GetRootSymbol reg ⟨⟨u, o⟩, h2⟩ code root dR =
         GetRootSymbol reg ⟨⟨u', o⟩, h2⟩ code root dR ∧
       GetInstruments reg ⟨⟨u, o⟩, h2⟩ code root dI =
         GetInstruments reg ⟨⟨u', o⟩, h2⟩ code root dI ∧
       GetPriceBars reg ⟨⟨u, o⟩, h2⟩ code symbol date dP =
         GetPriceBars reg ⟨⟨u', o⟩, h2⟩ code symbol date dP ∧
       GetAccounts reg ⟨⟨u, o⟩, h2⟩ code dA =
         GetAccounts reg ⟨⟨u', o⟩, h2⟩ code dA) ∧
    (∀ u o o' h2 adapters publish cs,
       Connect adapters publish reg ⟨⟨u, o⟩, h2⟩ code cs =
         Connect adapters publish reg ⟨⟨u, o'⟩, h2⟩ code cs ∧
       Disconnect publish reg ⟨⟨u, o⟩, h2⟩ code =
         Disconnect publish reg ⟨⟨u, o'⟩, h2⟩ code ∧
       TestAdapter reg ⟨⟨u, o⟩, h2⟩ code tar dT =
         TestAdapter reg ⟨⟨u, o'⟩, h2⟩ code tar dT) := by
  refine ⟨fun h => ?_, fun ctx h => ?_, fun h => ?_, fun ctx h => ?_,
    fun u u' o h2 => ⟨rfl, rfl, rfl, rfl, rfl⟩,
    fun u o o' h2 adapters publish cs => ⟨rfl, rfl, rfl⟩⟩
  · obtain ⟨m, hm⟩ := getConnectionContext_none reg c code h
    exact ⟨⟨m, by simp [GetRootSymbols, hm]⟩, ⟨m, by simp [GetRootSymbol, hm]⟩,
      ⟨m, by simp [GetInstruments, hm]⟩, ⟨m, by simp [GetPriceBars, hm]⟩,
      ⟨m, by simp [GetAccounts, hm]⟩⟩
  · have hm := getConnectionContext_some reg c code ctx h
    exact ⟨by simp [GetRootSymbols, hm], by simp [GetRootSymbol, hm],
      by simp [GetInstruments, hm], by simp [GetPriceBars, hm],
      by simp [GetAccounts, hm]⟩
  · exact testAdapter_resolution_none reg c code tar dT h
  · exact testAdapter_resolution_some reg c code tar dT ctx h

/-- C6, witness: alice acting on behalf of bob reaches bob's connection
through the account query, while her own TestAdapter lookup fails. -/
theorem C6_witness :
    GetAccounts regBobEx cActingEx "main" (fun _ => Except.ok []) =
      Except.ok [] ∧
    ∃ m, TestAdapter regBobEx cActingEx "main" ⟨"svc", "q"⟩
        (fun _ _ _ => Except.ok "r") =
      Except.error (SvcError.notFound m) := by
  have h := C6_thm regBobEx cActingEx "main" "f" "r" "s" ⟨0⟩ ⟨"svc", "q"⟩
    (fun _ _ => Except.ok []) (fun _ _ => Except.ok ⟨""⟩)
    (fun _ _ => Except.ok []) (fun _ _ _ => Except.ok ⟨""⟩)
    (fun _ => Except.ok []) (fun _ _ _ => Except.ok "r")
  refine ⟨?_, ?_⟩
  · exact ((h.2.1 ctxBobEx rfl).2.2.2.2).trans rfl
  · exact h.2.2.1 rfl

/-- C7: GetConnectionsToRefresh returns exactly the contexts, across all
users, whose NeedsRefresh reports true: membership in the returned list is
equivalent to being a stored context with the refresh flag set, regardless
of the owning user. -/
theorem C7_thm (reg : Registry) (ctx : ConnectionContext) :
    ctx ∈ GetConnectionsToRefresh reg ↔
      ∃ user uc code, (user, uc) ∈ reg ∧ (code, ctx) ∈ uc.contexts ∧
        ctx.NeedsRefresh = true := by
  simp only [GetConnectionsToRefresh, List.mem_flatMap, List.mem_filter,
    List.mem_map]
  constructor
  · rintro ⟨⟨user, uc⟩, hp, ⟨⟨⟨code, ctx'⟩, hq, rfl⟩, hn⟩⟩
    exact ⟨user, uc, code, hp, hq, hn⟩
  · rintro ⟨user, uc, code, hp, hq, hn⟩
    exact ⟨⟨user, uc⟩, hp, ⟨⟨code, ctx⟩, hq, rfl⟩, hn⟩

/-- C8: GetConnections ignores the filter, offset and limit arguments,
returns the empty list when the calling user has no registry entry, and
otherwise returns one ConnectionInfo per stored context of the calling
user's own username, carrying that context's username, connection code,
system code and system name; the list is built of fresh ConnectionInfo
values. -/
theorem C8_thm (reg : Registry) (c : AuthContext)
    (filter filter' : List (String × String))
    (offset offset' limit limit' : Int) :
    GetConnections reg c filter offset limit =
      GetConnections reg c filter' offset' limit' ∧
    (lookupA reg c.Session.Username = none →
       GetConnections reg c filter offset limit = []) ∧
    (∀ uc, lookupA reg c.Session.Username = some uc →
       (GetConnections reg c filter offset limit).length =
         uc.contexts.length ∧
       ∀ ci, ci ∈ GetConnections reg c filter offset limit ↔
         ∃ p, p ∈ uc.contexts ∧
           ci = ⟨p.2.Username, p.2.ConnectionCode, p.2.GetAdapterInfo.code,
                 p.2.GetAdapterInfo.name⟩) := by
  refine ⟨rfl, fun h => ?_, fun uc hu => ⟨?_, fun ci => ?_⟩⟩
  · simp [GetConnections, h]
  · simp [GetConnections, hu]
  · simp only [GetConnections, hu, List.mem_map]
    constructor
    · rintro ⟨p, hp, rfl⟩
      exact ⟨p, hp, rfl⟩
    · rintro ⟨p, hp, rfl⟩
      exact ⟨p, hp, rfl⟩

/-- C8, witness: snapshot of a one-connection registry. -/
theorem C8_witness :
    (GetConnections regConnEx cAlice [] 0 10).length = 1 ∧
    (⟨"alice", "main", "sys1", "System One"⟩ : ConnectionInfo) ∈
      GetConnections regConnEx cAlice [] 0 10 := by
  have h := (C8_thm regConnEx cAlice [] [] 0 0 10 10).2.2
    ⟨[("main", ctxConnEx)]⟩ rfl
  exact ⟨h.1, (h.2 ⟨"alice", "main", "sys1", "System One"⟩).2
    ⟨("main", ctxConnEx), by simp, rfl⟩⟩

/-- A first Connect call on the empty registry reaches connectFinish on a
fresh context, once the catalog resolves and construction succeeds. -/
theorem connect_empty (adapters : AdapterCatalog) (publish : Publisher)
    (c : AuthContext) (code : String) (cs : ConnectionSpec) (ad : AdapterDef)
    (had : lookupA adapters cs.SystemCode = some ad)
    (hctor : ad.newCtxError = none) :
    Connect adapters publish [] c code cs =
      connectFinish publish [(c.Session.Username, NewUserConnections)]
        c.Session.Username code NewUserConnections
        (builtContext c.Session.Username code c.host ad) := by
  have h1 : Connect adapters publish [] c code cs =
      connectWithUC adapters publish
        [(c.Session.Username, NewUserConnections)] c code cs
        NewUserConnections := rfl
  rw [h1, connectWithUC_fresh _ _ _ _ _ _ _
        (fun ctx h => by simp [NewUserConnections, lookupA] at h),
      connectResolve_found _ _ _ _ _ _ _ _ had hctor]

/-- Later Connect calls on a registry whose (user, code) entry is live are
no-ops: zero adapter invocations and only the two short-circuit results. -/
theorem runConnects_live (adapters : AdapterCatalog) (publish : Publisher)
    (c : AuthContext) (code : String) (cs : ConnectionSpec) (reg : Registry)
    (uc : UserConnections) (ctx : ConnectionContext) (n : Nat)
    (hu : lookupA reg c.Session.Username = some uc)
    (hc : lookupA uc.contexts code = some ctx)
    (hl : ctx.status = ConnStatus.connected ∨
      ctx.status = ConnStatus.connecting) :
    (runConnects adapters publish c code cs n reg).2.1 = 0 ∧
    ∀ r ∈ (runConnects adapters publish c code cs n reg).2.2,
      r = Except.ok ⟨ConnResStatus.connected, ConnResAction.unset,
            "Already connected"⟩ ∨
      r = Except.ok ⟨ConnResStatus.connecting, ConnResAction.unset,
            "Still connecting"⟩ := by
  induction n with
  | zero => exact ⟨rfl, by simp [runConnects]⟩
  | succ n ih =>
      obtain ⟨hres, hreg, htr⟩ :=
        connect_live adapters publish reg c code cs uc ctx hu hc hl
      have step : runConnects adapters publish c code cs (Nat.succ n) reg =
          ((runConnects adapters publish c code cs n reg).1,
           (runConnects adapters publish c code cs n reg).2.1,
           (Connect adapters publish reg c code cs).1 ::
             (runConnects adapters publish c code cs n reg).2.2) := by
        simp only [runConnects]
        rw [hreg, htr]
        simp [countAdapterConnects]
      refine ⟨?_, ?_⟩
      · rw [step]; exact ih.1
      · rw [step]
        intro r hr
        rcases List.mem_cons.mp hr with h | h
        · subst h; exact hres
        · exact ih.2 r h

/-- C9, counterexample. The claim states that for concurrent (here:
lock-serialized) Connect calls with the same (user, code) racing against
an empty registry, exactly one results in an adapter connect invocation.
With an adapter whose connect primitive fails, the first call stores an
Error-status context, the second is not short-circuited and invokes the
adapter again: two serialized calls from the empty registry produce two
adapter connect invocations. -/
theorem C9_counterexample :
    (runConnects adsEx pubOk cAlice "main" csFailEx 2 []).2.1 = 2 := rfl

/-- C9, amended: because every Connect call holds the registry writer lock
for its whole body, concurrent Connect calls with the same (user, code)
are serialized; starting from the empty registry, provided the catalog
resolves the system code, the context construction succeeds and the
adapter connect outcome is not an error, exactly one adapter connect
invocation happens across the n+1 serialized calls and every call after
the first short-circuits, observing Connected or Connecting. If the
adapter connect errors, later calls retry the handshake (see the
counterexample). -/
theorem C9_amended (adapters : AdapterCatalog) (publish : Publisher)
    (c : AuthContext) (code : String) (cs : ConnectionSpec) (ad : AdapterDef)
    (n : Nat)
    (had : lookupA adapters cs.SystemCode = some ad)
    (hctor : ad.newCtxError = none)
    (hok : ad.connectOutcome.isFailure = false) :
    (runConnects adapters publish c code cs (n + 1) []).2.1 = 1 ∧
    ∀ r ∈ (runConnects adapters publish c code cs (n + 1) []).2.2.drop 1,
      r = Except.ok ⟨ConnResStatus.connected, ConnResAction.unset,
            "Already connected"⟩ ∨
      r = Except.ok ⟨ConnResStatus.connecting, ConnResAction.unset,
            "Still connecting"⟩ := by
  have hemp := connect_empty adapters publish c code cs ad had hctor
  have hreg1 : (Connect adapters publish [] c code cs).2.1 =
      [(c.Session.Username,
        ⟨[(code, (builtContext c.Session.Username code c.host ad).doConnect.2)]⟩)] := by
    rw [hemp, (connectFinish_reg_trace _ _ _ _ _ _).1]
    simp [insertA, NewUserConnections]
  have hcount : countAdapterConnects
      (Connect adapters publish [] c code cs).2.2 = 1 := by
    rw [hemp]; exact connectFinish_count _ _ _ _ _ _
  have hlive := runConnects_live adapters publish c code cs
      [(c.Session.Username,
        ⟨[(code, (builtContext c.Session.Username code c.host ad).doConnect.2)]⟩)]
      ⟨[(code, (builtContext c.Session.Username code c.host ad).doConnect.2)]⟩
      ((builtContext c.Session.Username code c.host ad).doConnect.2) n
      (by simp [lookupA]) (by simp [lookupA]) (doConnect_status _ hok)
  constructor
  · show countAdapterConnects (Connect adapters publish [] c code cs).2.2 +
        (runConnects adapters publish c code cs n
          (Connect adapters publish [] c code cs).2.1).2.1 = 1
    rw [hcount, hreg1, hlive.1]
  · intro r hr
    have hr' : r ∈ (runConnects adapters publish c code cs n
        (Connect adapters publish [] c code cs).2.1).2.2 := hr
    rw [hreg1] at hr'
    exact hlive.2 r hr'

/-- C9, witness: two serialized calls with a succeeding adapter give one
adapter connect invocation. -/
theorem C9_witness :
    (runConnects adsEx pubOk cAlice "main" csEx 2 []).2.1 = 1 :=
  (C9_amended adsEx pubOk cAlice "main" csEx adOkEx 1 rfl rfl rfl).1

/-- Disconnect leaves the registry unchanged or overwrites the calling
user's outer entry; it never deletes an outer entry. -/
theorem disconnect_reg_shape (publish : Publisher) (reg : Registry)
    (c : AuthContext) (code : String) :
    (Disconnect publish reg c code).2.1 = reg ∨
    ∃ v, (Disconnect publish reg c code).2.1 =
      insertA reg c.Session.Username v := by
  unfold Disconnect
  split
  · exact Or.inl rfl
  · split
    · exact Or.inl rfl
    · split
      · exact Or.inl rfl
      · split
        · exact Or.inl rfl
        · exact Or.inr ⟨_, rfl⟩

/-- Connect leaves the registry unchanged or overwrites the calling user's
outer entry; it never deletes an outer entry. -/
theorem connect_reg_shape (adapters : AdapterCatalog) (publish : Publisher)
    (reg : Registry) (c : AuthContext) (code : String) (cs : ConnectionSpec) :
    (Connect adapters publish reg c code cs).2.1 = reg ∨
    ∃ v, (Connect adapters publish reg c code cs).2.1 =
      insertA reg c.Session.Username v := by
  obtain ⟨uc, reg1, heq, hreg1, -⟩ :=
    connect_shape adapters publish reg c code cs
  rw [heq]
  have hshape : (connectWithUC adapters publish reg1 c code cs uc).2.1 = reg1 ∨
      ∃ v, (connectWithUC adapters publish reg1 c code cs uc).2.1 =
        insertA reg1 c.Session.Username v := by
    unfold connectWithUC connectResolve
    split
    · split
      · exact Or.inl rfl
      · split
        · exact Or.inl rfl
        · split
          · exact Or.inl rfl
          · split
            · exact Or.inl rfl
            · exact Or.inr ⟨_, (connectFinish_reg_trace _ _ _ _ _ _).1⟩
    · split
      · exact Or.inl rfl
      · split
        · exact Or.inl rfl
        · exact Or.inr ⟨_, (connectFinish_reg_trace _ _ _ _ _ _).1⟩
  cases hreg1 with
  | inl h =>
      subst h
      exact hshape
  | inr h =>
      subst h
      cases hshape with
      | inl h2 => exact Or.inr ⟨NewUserConnections, h2⟩
      | inr h2 =>
          obtain ⟨v, hv⟩ := h2
          exact Or.inr ⟨v, by rw [hv, insertA_insertA_self]⟩

/-- C10: no operation removes a username's outer registry entry. Connect
and Disconnect preserve every existing outer entry (the query operations
do not produce a registry at all); a first-time caller's empty
UserConnections is inserted before the system code is validated, so a
Connect failing Not-Found on an unknown code, or failing context
construction, still leaves the fresh empty entry stored; a successful
Disconnect removes only the inner code entry, keeping the user's outer
entry even when its last context is removed. -/
theorem C10_thm (adapters : AdapterCatalog) (publish : Publisher)
    (reg : Registry) (c : AuthContext) (code : String) (cs : ConnectionSpec)
    (u : String) :
    ((lookupA reg u).isSome = true →
       (lookupA (Connect adapters publish reg c code cs).2.1 u).isSome
         = true) ∧
    ((lookupA reg u).isSome = true →
       (lookupA (Disconnect publish reg c code).2.1 u).isSome = true) ∧
    (lookupA reg c.Session.Username = none →
       lookupA adapters cs.SystemCode = none →
       lookupA (Connect adapters publish reg c code cs).2.1
           c.Session.Username =
         some NewUserConnections) ∧
    (∀ ad e, lookupA reg c.Session.Username = none →
       lookupA adapters cs.SystemCode = some ad → ad.newCtxError = some e →
       lookupA (Connect adapters publish reg c code cs).2.1
           c.Session.Username =
         some NewUserConnections) ∧
    (∀ uc ctx, lookupA reg c.Session.Username = some uc →
       lookupA uc.contexts code = some ctx → ctx.IsDisconnected = false →
       publish (changeMessage ctx) = none →
       lookupA (Disconnect publish reg c code).2.1 c.Session.Username =
         some ⟨eraseA uc.contexts code⟩) := by
  refine ⟨fun h => ?_, fun h => ?_, fun h1 h2 => ?_,
    fun ad e h1 h2 h3 => ?_, fun uc ctx hu hc hd hp => ?_⟩
  · cases connect_reg_shape adapters publish reg c code cs with
    | inl hs => rw [hs]; exact h
    | inr hs =>
        obtain ⟨v, hv⟩ := hs
        rw [hv]
        exact lookupA_isSome_insertA _ _ _ _ h
  · cases disconnect_reg_shape publish reg c code with
    | inl hs => rw [hs]; exact h
    | inr hs =>
        obtain ⟨v, hv⟩ := hs
        rw [hv]
        exact lookupA_isSome_insertA _ _ _ _ h
  · have hC : Connect adapters publish reg c code cs =
        connectWithUC adapters publish
          (insertA reg c.Session.Username NewUserConnections) c code cs
          NewUserConnections := by
      unfold Connect; rw [h1]
    rw [hC, connectWithUC_fresh _ _ _ _ _ _ _
          (fun ctx h => by simp [NewUserConnections, lookupA] at h)]
    simp [connectResolve, h2, lookupA_insertA_self]
  · have hC : Connect adapters publish reg c code cs =
        connectWithUC adapters publish
          (insertA reg c.Session.Username NewUserConnections) c code cs
          NewUserConnections := by
      unfold Connect; rw [h1]
    rw [hC, connectWithUC_fresh _ _ _ _ _ _ _
          (fun ctx h => by simp [NewUserConnections, lookupA] at h)]
    simp [connectResolve, NewConnectionContext, h2, h3, lookupA_insertA_self]
  · simp [Disconnect, sendConnectionChangeMessage, hu, hc, hd, hp,
      lookupA_insertA_self]

/-- C10, witness: a first-time Connect failing Not-Found on an unknown
system code leaves the fresh empty outer entry stored. -/
theorem C10_witness :
    lookupA (Connect adsEx pubOk [] cAlice "main" ⟨"nope", [], []⟩).2.1
        "alice" =
      some NewUserConnections :=
  (C10_thm adsEx pubOk [] cAlice "main" ⟨"nope", [], []⟩ "alice").2.2.1
    rfl rfl

end SysAdapter
